import Mathlib

/-!
Verification of the MicroLLM-Lab front-end run-event pipeline.

This file gives a shallow embedding of the client-side code of the
repository and proves (or refutes) the specification claims about it.
The embedded sources are:

* `frontend/src/liveViewState.ts` — the pure helpers
  `shouldAcceptEventSequence` and `nextFrameIndexAfterAppend`;
* `frontend/src/App.tsx`       — the SSE event handler `onEvent`, the
  run-creation handler `handleCreateRun`, the op-graph playback effect,
  and the stream `onerror` callback;
* `frontend/src/api.ts`        — `eventStreamUrl`.

JavaScript numbers are modelled by `JSNum` (rationals plus `NaN` and the
two infinities; the claims under scrutiny only exercise integral values,
`NaN` and finiteness, where double arithmetic is exact).  Runtime
JavaScript values flowing through the untyped event payloads are modelled
by `JSVal`.  A thrown JavaScript exception is modelled by the handler
returning the state reached so far together with `some` error, so that
side effects performed before the throw are preserved, exactly as React
state-setter calls enqueued before an exception are.
-/

/-- Model of a JavaScript `number`: `NaN`, the two infinities, or a finite
value (a rational; all values the claims exercise are exactly
representable doubles). -/
inductive JSNum where
  | nan
  | inf
  | ninf
  | fin (q : ℚ)
deriving DecidableEq, Repr

namespace JSNum

/-- JavaScript `<` on numbers: any comparison with `NaN` is `false`;
`-Infinity` is below and `Infinity` above every finite value. -/
def jsLt : JSNum → JSNum → Bool
  | nan, _ => false
  | _, nan => false
  | fin a, fin b => decide (a < b)
  | fin _, inf => true
  | fin _, ninf => false
  | inf, _ => false
  | ninf, ninf => false
  | ninf, _ => true

/-- `Number.isFinite`. -/
def isFinite : JSNum → Bool
  | fin _ => true
  | _ => false

end JSNum

/-- From `frontend/src/liveViewState.ts` lines 1-3:
`Number.isFinite(incomingSeq) && incomingSeq > lastSeenSeq`
(JavaScript `a > b` is `b < a` for numbers). -/
def shouldAcceptEventSequence (lastSeenSeq incomingSeq : JSNum) : Bool :=
  incomingSeq.isFinite && JSNum.jsLt lastSeenSeq incomingSeq

/-- From `frontend/src/liveViewState.ts` lines 5-18.  The TypeScript
function works on JS doubles; every claim about it quantifies over
integers, on which the `+ 1`, `Math.min`, `Math.max` and `<=` used here
are exact, so the embedding uses `Int`. -/
def nextFrameIndexAfterAppend (previousFrameCount : Int)
    (isFollowingLatest : Bool) (selectedFrameIndex : Int) : Int :=
  let nextFrameCount := previousFrameCount + 1
  if nextFrameCount ≤ 0 then 0
  else if isFollowingLatest then nextFrameCount - 1
  else min (max selectedFrameIndex 0) (nextFrameCount - 1)

/-- Model of a runtime JavaScript value as produced by `JSON.parse`
(plus `undefined`, which property reads can produce). -/
inductive JSVal where
  | undef
  | null
  | bool (b : Bool)
  | num (n : JSNum)
  | str (s : String)
  | arr (xs : List JSVal)
  | obj (fields : List (String × JSVal))

/-- A JavaScript exception escaping the event handler: `JSON.parse` threw
on malformed data, or a property was read from `null`/`undefined`. -/
inductive JsErr where
  | parseError
  | typeError
deriving DecidableEq, Repr

namespace JSVal

/-- JavaScript property read `v.k`: throws `TypeError` on `null` and
`undefined`; a missing object key yields `undefined`; reads of the
(unmodelled) properties of other values yield `undefined`, which is what
the handler's accesses observe on primitives and arrays. -/
def jsGet : JSVal → String → Except JsErr JSVal
  | undef, _ => .error .typeError
  | null, _ => .error .typeError
  | obj fields, k => .ok ((fields.lookup k).getD undef)
  | _, _ => .ok undef

/-- JavaScript `??` (nullish coalescing). -/
def jsCoalesce : JSVal → JSVal → JSVal
  | undef, d => d
  | null, d => d
  | v, _ => v

/-- JavaScript truthiness. -/
def jsTruthy : JSVal → Bool
  | undef => false
  | null => false
  | bool b => b
  | num n => !(n == .nan) && !(n == .fin 0)
  | str s => !(s == "")
  | arr _ => true
  | obj _ => true

/-- JavaScript strict equality of a value against a string literal, as in
`parsed.type === "step.loss"`. -/
def jsStrictEq : JSVal → String → Bool
  | str t, s => t == s
  | _, _ => false

/-- `Number(s)` on strings, restricted to the shapes that can matter here:
the empty string converts to `0`, a plain decimal natural converts to its
value, anything else to `NaN`. -/
def strToNumber (s : String) : JSNum :=
  if s = "" then .fin 0
  else match s.toNat? with
    | some n => .fin n
    | none => .nan

/-- JavaScript `Number(x)` coercion on the value shapes the handler can
feed it (non-primitive values convert through `toPrimitive`, which is not
modelled and never exercised by the claims; they are mapped to `NaN`). -/
def jsToNumber : JSVal → JSNum
  | undef => .nan
  | null => .fin 0
  | bool b => .fin (if b then 1 else 0)
  | num n => n
  | str s => strToNumber s
  | arr _ => .nan
  | obj _ => .nan

/-- Rendering of a `JSNum` by JavaScript `String(...)`: exact for the
special values and integers; non-integral rationals are shown in Lean's
rational notation (JS double decimal formatting is not modelled and is
never exercised by the claims). -/
def numToString : JSNum → String
  | .nan => "NaN"
  | .inf => "Infinity"
  | .ninf => "-Infinity"
  | .fin q => if q.den = 1 then toString q.num else toString q

/-- JavaScript `String(x)` on the value shapes reachable in the handler.
The handler only stringifies the `error` field of a `run.failed` payload;
array stringification (comma-joining) is not modelled and is never
exercised by the claims. -/
def jsToString : JSVal → String
  | undef => "undefined"
  | null => "null"
  | bool b => cond b "true" "false"
  | num n => numToString n
  | str s => s
  | arr _ => ""
  | obj _ => "[object Object]"

/-- JavaScript array indexing `xs[i]` with an integer index: the element
for `0 ≤ i < length`, otherwise `undefined` (here `none`). -/
def jsIndex {α : Type} (xs : List α) (i : Int) : Option α :=
  if 0 ≤ i then xs.get? i.toNat else none

end JSVal

/-- From `frontend/src/App.tsx` line 31: `{ step: number; loss: number }`,
both fields produced by `Number(...)` coercions in the handler. -/
structure LossPoint where
  step : JSNum
  loss : JSNum
deriving DecidableEq, Repr

/-- From `frontend/src/App.tsx` line 37: `{ step: number; values: ... }`.
The `values` record is taken from the payload by an unchecked cast, so at
runtime it is an arbitrary JavaScript value; the model stores it raw. -/
structure NormFrame where
  step : JSNum
  values : JSVal

/-- From `frontend/src/App.tsx` lines 38-42.  The `nodes` and `edges`
lists are taken from the payload after an `Array.isArray` check, but the
elements themselves are unchecked casts, so the model keeps them raw. -/
structure OpGraph where
  step : JSNum
  nodes : List JSVal
  edges : List JSVal

/-- The `useState` cells of the `App` component in
`frontend/src/App.tsx` lines 103-122 that the modelled handlers read or
write.  `packs`, `selectedPackId`, `config` and `uploadFile` are touched
only by code outside the modelled claims and are omitted.  The type
ascriptions on the frame buffers in the source are compile-time casts
without runtime checks, so the buffers hold raw payload values; the
index cells only ever receive integer values (`0` or slider/number-input
values), so they are modelled as `Int`; `currentStep` and `samples` are
assigned raw payload fields and so are `JSVal`. -/
structure ClientState where
  runId : String
  status : String
  error : String
  losses : List LossPoint
  forwardFrames : List JSVal
  attentionFrames : List JSVal
  gradientFrames : List NormFrame
  updateFrames : List NormFrame
  samples : JSVal
  opGraphs : List OpGraph
  selectedFrameIndex : Int
  selectedTokenPosition : Int
  selectedOpGraphIndex : Int
  isPlayingGraph : Bool
  highlightNodeIndex : Int
  currentStep : JSVal

/-- The initial `useState` values of `App` (lines 106-122): empty id,
status `"idle"`, empty buffers and zero indices. -/
def initClientState : ClientState where
  runId := ""
  status := "idle"
  error := ""
  losses := []
  forwardFrames := []
  attentionFrames := []
  gradientFrames := []
  updateFrames := []
  samples := .arr []
  opGraphs := []
  selectedFrameIndex := 0
  selectedTokenPosition := 0
  selectedOpGraphIndex := 0
  isPlayingGraph := false
  highlightNodeIndex := 0
  currentStep := .num (.fin 0)

open JSVal in
/-- The SSE handler `onEvent` of `frontend/src/App.tsx` lines 145-192.
The input is the result of `JSON.parse(event.data)`: `none` when the data
is not valid JSON (the parse throws), otherwise the parsed value.  The
result carries the state after the handler ran together with `some` error
when a JavaScript exception escaped it; state-setter calls made before
the throw remain applied, matching React's enqueued updates.  The
source's ten sequential `if` statements compare `parsed.type` against
pairwise-distinct string literals and none of the bodies returns, which
is equivalent to the `else if` chain used here. -/
def onEvent (data : Option JSVal) (s : ClientState) : ClientState × Option JsErr :=
  match data with
  | none => (s, some .parseError)
  | some parsed =>
    match jsGet parsed "payload" with
    | .error e => (s, some e)
    | .ok payload =>
      match jsGet parsed "type" with
      | .error e => (s, some e)
      | .ok ty =>
        if jsStrictEq ty "step.forward" then
          -- the frame is appended before `frame.step` is read, so a
          -- nullish payload is appended and then the read throws
          let s1 := { s with forwardFrames := s.forwardFrames ++ [payload] }
          match jsGet payload "step" with
          | .error e => (s1, some e)
          | .ok st => ({ s1 with currentStep := st }, none)
        else if jsStrictEq ty "step.attention" then
          ({ s with attentionFrames := s.attentionFrames ++ [payload] }, none)
        else if jsStrictEq ty "step.loss" then
          match jsGet payload "step" with
          | .error e => (s, some e)
          | .ok stv =>
            match jsGet payload "loss" with
            | .error e => (s, some e)
            | .ok lv =>
              ({ s with losses := s.losses ++
                  [⟨jsToNumber (jsCoalesce stv (num (.fin 0))),
                    jsToNumber (jsCoalesce lv (num (.fin 0)))⟩] }, none)
        else if jsStrictEq ty "step.backward" then
          match jsGet payload "step" with
          | .error e => (s, some e)
          | .ok stv =>
            let step := jsToNumber (jsCoalesce stv (num (.fin 0)))
            match jsGet payload "gradient_norms" with
            | .error e => (s, some e)
            | .ok gn =>
              let s1 := { s with gradientFrames :=
                  s.gradientFrames ++ [⟨step, jsCoalesce gn (obj [])⟩] }
              match jsGet payload "op_graph" with
              | .error e => (s1, some e)
              | .ok gp =>
                if jsTruthy gp then
                  match jsGet gp "nodes", jsGet gp "edges" with
                  | .ok (arr nodes), .ok (arr edges) =>
                    ({ s1 with opGraphs := s1.opGraphs ++ [⟨step, nodes, edges⟩] }, none)
                  | _, _ => (s1, none)
                else (s1, none)
        else if jsStrictEq ty "step.update" then
          match jsGet payload "step" with
          | .error e => (s, some e)
          | .ok stv =>
            let step := jsToNumber (jsCoalesce stv (num (.fin 0)))
            match jsGet payload "update_norms" with
            | .error e => (s, some e)
            | .ok un =>
              ({ s with updateFrames :=
                  s.updateFrames ++ [⟨step, jsCoalesce un (obj [])⟩] }, none)
        else if jsStrictEq ty "sample.generated" then
          match jsGet payload "samples" with
          | .error e => (s, some e)
          | .ok sv => ({ s with samples := jsCoalesce sv (arr []) }, none)
        else if jsStrictEq ty "run.completed" then
          ({ s with status := "completed" }, none)
        else if jsStrictEq ty "run.failed" then
          -- status is set before `payload.error` is read
          let s1 := { s with status := "failed" }
          match jsGet payload "error" with
          | .error e => (s1, some e)
          | .ok ev =>
            ({ s1 with error := jsToString (jsCoalesce ev (str "Run failed")) }, none)
        else if jsStrictEq ty "run.canceled" then
          ({ s with status := "canceled" }, none)
        else
          -- `run.started` and any unrecognized type: no branch matches,
          -- the record is dropped
          (s, none)

/-- Summary returned by `createRun` in `frontend/src/api.ts`. -/
structure RunSummary where
  run_id : String
  status : String

/-- The synchronous prefix of `handleCreateRun`
(`frontend/src/App.tsx` lines 257-269): the thirteen state-setter calls
issued before `await createRun(...)`.  It does not touch `runId`,
`status` or `isPlayingGraph`. -/
def resetRunViewState (s : ClientState) : ClientState :=
  { s with
    error := ""
    losses := []
    forwardFrames := []
    attentionFrames := []
    gradientFrames := []
    updateFrames := []
    samples := .arr []
    opGraphs := []
    selectedFrameIndex := 0
    selectedTokenPosition := 0
    selectedOpGraphIndex := 0
    highlightNodeIndex := 0
    currentStep := .num (.fin 0) }

/-- `handleCreateRun` of `frontend/src/App.tsx` lines 256-278, with the
outcome of the awaited `createRun` call passed explicitly: the view state
is reset unconditionally first; on success `runId` and `status` are taken
from the returned summary (the stream effect then opens the new stream
keyed on the changed `runId`); on failure only the error message is set,
leaving `runId` and `status` untouched. -/
def handleCreateRun (result : Except String RunSummary) (s : ClientState) : ClientState :=
  let s1 := resetRunViewState s
  match result with
  | .ok run => { s1 with runId := run.run_id, status := run.status }
  | .error msg => { s1 with error := msg }

/-- One tick of the op-graph playback timer
(`frontend/src/App.tsx` lines 217-227).  The effect installs the interval
only when `isPlayingGraph` is set and the selected graph exists with a
nonempty node list, so a tick can only occur under that guard; the
callback is `setHighlightNodeIndex(prev => (prev + 1) % graph.nodes.length)`
(JavaScript `%` is the truncated remainder, `Int.tmod`). -/
def playbackTick (s : ClientState) : ClientState :=
  if s.isPlayingGraph then
    match JSVal.jsIndex s.opGraphs s.selectedOpGraphIndex with
    | none => s
    | some graph =>
      if graph.nodes.length = 0 then s
      else { s with highlightNodeIndex :=
          (s.highlightNodeIndex + 1).tmod (graph.nodes.length : Int) }
  else s

/-- The Play/Pause button handler (`frontend/src/App.tsx` line 682):
`setIsPlayingGraph(prev => !prev)`, which starts or stops the playback
timer. -/
def togglePlayback (s : ClientState) : ClientState :=
  { s with isPlayingGraph := !s.isPlayingGraph }

/-- `source.onerror` of `frontend/src/App.tsx` lines 207-211: when the
captured `status` is `"running"` an advisory message is set; nothing else
is touched, and the `EventSource` is left to its own automatic
reconnection. -/
def onStreamError (s : ClientState) : ClientState :=
  if s.status = "running" then
    { s with error := "Connection lost. Training may still be running." }
  else s

/-- `eventStreamUrl` of `frontend/src/api.ts` lines 47-49, with the
module-level `API_BASE` passed explicitly (its default is
`"http://localhost:8000"`). -/
def eventStreamUrl (apiBase runId : String) : String :=
  apiBase ++ "/api/v1/runs/" ++ runId ++ "/events"

/-- C2: `shouldAcceptEventSequence lastSeen incoming` returns `true` iff
`incoming` is finite and exceeds `lastSeen` under the JavaScript number
order: in general it equals the conjunction of the finiteness test and
the JS comparison, on finite arguments it decides strict order of the
values, any non-finite `incoming` (`NaN` or either infinity) is rejected
for every `lastSeen`, and the four cited instances
`(5,6) ↦ true`, `(5,5) ↦ false`, `(5,4) ↦ false`, `(5,NaN) ↦ false`
hold. -/
theorem shouldAcceptEventSequence_spec :
    (∀ lastSeen incoming : JSNum,
        shouldAcceptEventSequence lastSeen incoming =
          (incoming.isFinite && JSNum.jsLt lastSeen incoming))
  ∧ (∀ ql qi : ℚ,
        shouldAcceptEventSequence (.fin ql) (.fin qi) = decide (ql < qi))
  ∧ (∀ lastSeen : JSNum, shouldAcceptEventSequence lastSeen .nan = false)
  ∧ (∀ lastSeen : JSNum, shouldAcceptEventSequence lastSeen .inf = false)
  ∧ (∀ lastSeen : JSNum, shouldAcceptEventSequence lastSeen .ninf = false)
  ∧ shouldAcceptEventSequence (.fin 5) (.fin 6) = true
  ∧ shouldAcceptEventSequence (.fin 5) (.fin 5) = false
  ∧ shouldAcceptEventSequence (.fin 5) (.fin 4) = false
  ∧ shouldAcceptEventSequence (.fin 5) .nan = false := by
  refine ⟨fun _ _ => rfl, fun ql qi => rfl, fun l => rfl, fun l => rfl,
    fun l => rfl, by decide, by decide, by decide, by decide⟩

/-- C3: after one append, `nextFrameIndexAfterAppend` jumps to the newest
index `n` when live-follow is set, and otherwise clamps the pinned index
into `[0, n]`; in particular `(3, true, _) = 3`, `(3, false, 1) = 1` and
`(2, false, 10) = 2`. -/
theorem nextFrameIndexAfterAppend_reconciliation :
    (∀ n p : Int, 0 ≤ n →
        nextFrameIndexAfterAppend n true p = n
      ∧ nextFrameIndexAfterAppend n false p = max 0 (min p n))
  ∧ (∀ p : Int, nextFrameIndexAfterAppend 3 true p = 3)
  ∧ nextFrameIndexAfterAppend 3 false 1 = 1
  ∧ nextFrameIndexAfterAppend 2 false 10 = 2 := by
  refine ⟨fun n p hn => ⟨?_, ?_⟩, fun p => ?_, by decide, by decide⟩
  all_goals
    simp only [nextFrameIndexAfterAppend, Bool.false_eq_true, if_false,
      eq_self_iff_true, if_true, Int.min_def, Int.max_def]
  all_goals split_ifs <;> omega

/-- Witness for C3 at concrete inputs: live-follow on size 3 yields 3,
and pinned index 1 on size 3 stays 1 (the clamp of 1 into `[0, 3]`). -/
theorem nextFrameIndexAfterAppend_reconciliation_witness :
    nextFrameIndexAfterAppend 3 true 0 = 3
  ∧ nextFrameIndexAfterAppend 3 false 1 = max 0 (min 1 3) :=
  ⟨(nextFrameIndexAfterAppend_reconciliation.1 3 0 (by decide)).1,
   (nextFrameIndexAfterAppend_reconciliation.1 3 1 (by decide)).2⟩

/-- C9: `nextFrameIndexAfterAppend` is total and its result always lies
in `[0, max n 0]` for all integer inputs, including negative ones; a
negative pinned index (with live-follow off) yields `0`, and a
non-positive new frame count yields `0`. -/
theorem nextFrameIndexAfterAppend_total_range :
    ∀ (n p : Int) (f : Bool),
      (0 ≤ nextFrameIndexAfterAppend n f p
        ∧ nextFrameIndexAfterAppend n f p ≤ max n 0)
    ∧ (f = false → p < 0 → nextFrameIndexAfterAppend n f p = 0)
    ∧ (n + 1 ≤ 0 → nextFrameIndexAfterAppend n f p = 0) := by
  intro n p f
  refine ⟨⟨?_, ?_⟩, fun hf hp => ?_, fun hn => ?_⟩
  · simp only [nextFrameIndexAfterAppend, Bool.false_eq_true, if_false,
      eq_self_iff_true, if_true, Int.min_def, Int.max_def]; split_ifs <;> omega
  · simp only [nextFrameIndexAfterAppend, Bool.false_eq_true, if_false,
      eq_self_iff_true, if_true, Int.min_def, Int.max_def]; split_ifs <;> omega
  · subst hf; simp only [nextFrameIndexAfterAppend, Bool.false_eq_true, if_false,
      eq_self_iff_true, if_true, Int.min_def, Int.max_def]; split_ifs <;> omega
  · simp only [nextFrameIndexAfterAppend, Bool.false_eq_true, if_false,
      eq_self_iff_true, if_true, Int.min_def, Int.max_def]
    split_ifs
    all_goals omega

/-- Witness for C9 at concrete inputs: a non-positive new frame count and
a negative pinned index both produce index `0`, which is within range. -/
theorem nextFrameIndexAfterAppend_total_range_witness :
    0 ≤ nextFrameIndexAfterAppend (-3) false (-2)
  ∧ nextFrameIndexAfterAppend (-3) false (-2) = 0
  ∧ nextFrameIndexAfterAppend 5 false (-7) = 0 :=
  ⟨(nextFrameIndexAfterAppend_total_range (-3) (-2) false).1.1,
   (nextFrameIndexAfterAppend_total_range (-3) (-2) false).2.2 (by decide),
   (nextFrameIndexAfterAppend_total_range 5 (-7) false).2.1 rfl (by decide)⟩

/-- A well-formed `step.loss` record with `seq = 1`, as redelivered
verbatim after a reconnect. -/
def duplicateLossRecord : JSVal :=
  .obj [("seq", .num (.fin 1)), ("type", .str "step.loss"),
        ("timestamp", .str "2026-01-01T00:00:00Z"),
        ("payload", .obj [("step", .num (.fin 1)), ("loss", .num (.fin 2))])]

/-- C1: the handler has no acceptance filter — it never reads `seq` and
the component keeps no `lastAcceptedSeq` — so delivering the identical
record (same `seq = 1`) twice folds its loss point into the loss buffer
twice instead of silently discarding the duplicate. -/
theorem duplicate_record_folded_twice :
    (onEvent (some duplicateLossRecord) initClientState).fst.losses
      = [⟨.fin 1, .fin 2⟩]
  ∧ (onEvent (some duplicateLossRecord)
        (onEvent (some duplicateLossRecord) initClientState).fst).fst.losses
      = [⟨.fin 1, .fin 2⟩, ⟨.fin 1, .fin 2⟩] :=
  ⟨rfl, rfl⟩

/-- A `step.forward` record whose payload is `null`. -/
def nullPayloadForwardRecord : JSVal :=
  .obj [("seq", .num (.fin 2)), ("type", .str "step.forward"),
        ("payload", .null)]

/-- C4: malformed input is not dropped cleanly.  A message whose data is
not valid JSON makes an exception escape the handler (`JSON.parse` is
called without try/catch); a `step.forward` record with `null` payload is
appended raw to the forward buffer and then the `frame.step` read throws;
only a record with an unrecognized type is dropped silently with no
escaping exception. -/
theorem malformed_event_exception :
    onEvent none initClientState = (initClientState, some .parseError)
  ∧ (onEvent (some nullPayloadForwardRecord) initClientState).fst.forwardFrames
      = [.null]
  ∧ (onEvent (some nullPayloadForwardRecord) initClientState).snd
      = some .typeError
  ∧ onEvent (some (.obj [("type", .str "telemetry.ping"), ("payload", .obj [])]))
        initClientState
      = (initClientState, none) :=
  ⟨rfl, rfl, rfl, rfl⟩

/-- C6: a terminal event updates the run status directly and appends to
no typed buffer: `run.completed` and `run.canceled` change only `status`,
and `run.failed` changes only `status` and the surfaced error string
carried in its payload. -/
theorem terminal_events_update_status (s : ClientState) (msg : String) :
    onEvent (some (.obj [("type", .str "run.completed"), ("payload", .obj [])])) s
      = ({ s with status := "completed" }, none)
  ∧ onEvent (some (.obj [("type", .str "run.failed"),
        ("payload", .obj [("error", .str msg)])])) s
      = ({ s with status := "failed", error := msg }, none)
  ∧ onEvent (some (.obj [("type", .str "run.canceled"), ("payload", .obj [])])) s
      = ({ s with status := "canceled" }, none) :=
  ⟨rfl, rfl, rfl⟩

/-- C5 counterexample: the client opens the stream through
`eventStreamUrl`, which for a concrete run id produces a URL carrying no
query string at all — every character of it is different from both `?`
and `_`, so in particular no `from_seq` replay offset (and no other
parameter) is supplied by the client, and the component keeps no
`lastAcceptedSeq` to supply. -/
theorem eventStreamUrl_no_replay_offset :
    eventStreamUrl "http://localhost:8000" "run-1"
      = "http://localhost:8000/api/v1/runs/run-1/events"
  ∧ ((eventStreamUrl "http://localhost:8000" "run-1").toList.all
        (fun c => (c != '_') && (c != '?'))) = true :=
  ⟨rfl, by decide⟩

/-- C5 (amended): a transport-level disconnect is not surfaced as a run
failure — the `onerror` callback leaves the run status, the run id and
every buffer unchanged and only sets an advisory error message when the
status is `"running"` — and the client itself supplies no replay offset:
the stream URL it opens carries no `from_seq` parameter, reconnection
and any replay being left to the transport layer. -/
theorem stream_error_not_run_failure :
    (∀ s : ClientState,
        (onStreamError s).status = s.status
      ∧ (onStreamError s).runId = s.runId
      ∧ (onStreamError s).losses = s.losses
      ∧ (onStreamError s).forwardFrames = s.forwardFrames
      ∧ (onStreamError s).attentionFrames = s.attentionFrames
      ∧ (onStreamError s).gradientFrames = s.gradientFrames
      ∧ (onStreamError s).updateFrames = s.updateFrames
      ∧ (onStreamError s).samples = s.samples
      ∧ (onStreamError s).opGraphs = s.opGraphs
      ∧ (onStreamError s).error =
          (if s.status = "running"
           then "Connection lost. Training may still be running."
           else s.error))
  ∧ eventStreamUrl "http://localhost:8000" "run-1"
      = "http://localhost:8000/api/v1/runs/run-1/events" := by
  refine ⟨fun s => ?_, rfl⟩
  unfold onStreamError
  split_ifs with h <;>
    exact ⟨rfl, rfl, rfl, rfl, rfl, rfl, rfl, rfl, rfl, rfl⟩

/-- C7 (code evaluation): `handleCreateRun` clears all seven typed
buffers and zeroes every selection index, the highlight index and the
current step before the awaited creation resolves (so before the new
stream, keyed on the changed `runId`, is opened), for every previous
state and every outcome of the creation call.  The component maintains no
`lastAcceptedSeq` or `liveFollow` state, so there is nothing for the
reset to set to `0` or `true`. -/
theorem handleCreateRun_clears_view (s : ClientState)
    (r : Except String RunSummary) :
    (handleCreateRun r s).losses = []
  ∧ (handleCreateRun r s).forwardFrames = []
  ∧ (handleCreateRun r s).attentionFrames = []
  ∧ (handleCreateRun r s).gradientFrames = []
  ∧ (handleCreateRun r s).updateFrames = []
  ∧ (handleCreateRun r s).samples = .arr []
  ∧ (handleCreateRun r s).opGraphs = []
  ∧ (handleCreateRun r s).selectedFrameIndex = 0
  ∧ (handleCreateRun r s).selectedTokenPosition = 0
  ∧ (handleCreateRun r s).selectedOpGraphIndex = 0
  ∧ (handleCreateRun r s).highlightNodeIndex = 0
  ∧ (handleCreateRun r s).currentStep = .num (.fin 0) := by
  cases r <;>
    exact ⟨rfl, rfl, rfl, rfl, rfl, rfl, rfl, rfl, rfl, rfl, rfl, rfl⟩

/-- C10: when the creation call fails, `handleCreateRun` leaves the state
with every buffer cleared, all indices zeroed and the error set to the
failure message, while `runId` and `status` (absent from the update)
keep their previous values — the previous run's view is wiped even though
no new run starts. -/
theorem createRun_failure_wipes_state (s : ClientState) (msg : String) :
    handleCreateRun (.error msg) s =
      { s with
        error := msg
        losses := []
        forwardFrames := []
        attentionFrames := []
        gradientFrames := []
        updateFrames := []
        samples := .arr []
        opGraphs := []
        selectedFrameIndex := 0
        selectedTokenPosition := 0
        selectedOpGraphIndex := 0
        highlightNodeIndex := 0
        currentStep := .num (.fin 0) } := rfl

theorem playbackTick_shape (s : ClientState) :
    ∃ h : Int, playbackTick s = { s with highlightNodeIndex := h } := by
  unfold playbackTick
  split
  · split
    · exact ⟨s.highlightNodeIndex, rfl⟩
    · split
      · exact ⟨s.highlightNodeIndex, rfl⟩
      · exact ⟨_, rfl⟩
  · exact ⟨s.highlightNodeIndex, rfl⟩

/-- C8: a playback tick only moves the highlight pointer — every buffer,
the status, the error, the run id and every other index are unchanged —
and under the guard installing the timer (playing, a selected graph with
a nonempty node list) it maps pointer `i` to `(i + 1) mod n` with `n` the
node count; starting or stopping the timer only toggles the playing flag
and touches neither the pointer nor any buffer. -/
theorem playback_tick_spec :
    (∀ s : ClientState,
        (playbackTick s).losses = s.losses
      ∧ (playbackTick s).forwardFrames = s.forwardFrames
      ∧ (playbackTick s).attentionFrames = s.attentionFrames
      ∧ (playbackTick s).gradientFrames = s.gradientFrames
      ∧ (playbackTick s).updateFrames = s.updateFrames
      ∧ (playbackTick s).samples = s.samples
      ∧ (playbackTick s).opGraphs = s.opGraphs
      ∧ (playbackTick s).status = s.status
      ∧ (playbackTick s).runId = s.runId
      ∧ (playbackTick s).error = s.error
      ∧ (playbackTick s).selectedFrameIndex = s.selectedFrameIndex
      ∧ (playbackTick s).selectedTokenPosition = s.selectedTokenPosition
      ∧ (playbackTick s).selectedOpGraphIndex = s.selectedOpGraphIndex
      ∧ (playbackTick s).currentStep = s.currentStep)
  ∧ (∀ s : ClientState,
        (togglePlayback s).isPlayingGraph = !s.isPlayingGraph
      ∧ (togglePlayback s).highlightNodeIndex = s.highlightNodeIndex
      ∧ (togglePlayback s).losses = s.losses
      ∧ (togglePlayback s).forwardFrames = s.forwardFrames
      ∧ (togglePlayback s).attentionFrames = s.attentionFrames
      ∧ (togglePlayback s).gradientFrames = s.gradientFrames
      ∧ (togglePlayback s).updateFrames = s.updateFrames
      ∧ (togglePlayback s).samples = s.samples
      ∧ (togglePlayback s).opGraphs = s.opGraphs)
  ∧ (∀ (s : ClientState) (g : OpGraph),
        s.isPlayingGraph = true →
        JSVal.jsIndex s.opGraphs s.selectedOpGraphIndex = some g →
        0 < g.nodes.length →
        0 ≤ s.highlightNodeIndex →
        (playbackTick s).highlightNodeIndex =
          (s.highlightNodeIndex + 1) % (g.nodes.length : Int)) := by
  refine ⟨fun s => ?_, fun s => ?_, fun s g hp hg hn hh => ?_⟩
  · obtain ⟨h, he⟩ := playbackTick_shape s
    rw [he]
    exact ⟨rfl, rfl, rfl, rfl, rfl, rfl, rfl, rfl, rfl, rfl, rfl, rfl, rfl, rfl⟩
  · exact ⟨rfl, rfl, rfl, rfl, rfl, rfl, rfl, rfl, rfl⟩
  · unfold playbackTick
    rw [hp, hg]
    simp only [eq_self_iff_true, if_true]
    rw [if_neg (Nat.pos_iff_ne_zero.mp hn)]
    exact Int.tmod_eq_emod (by omega) (by positivity)

/-- A state in which the playback timer is installed: playing, one
selected graph with three nodes, highlight pointer at 2. -/
def playbackDemoState : ClientState :=
  { initClientState with
      isPlayingGraph := true
      opGraphs := [⟨.fin 1, [.null, .null, .null], []⟩]
      highlightNodeIndex := 2 }

/-- Witness for C8 at a concrete state: with three nodes and pointer 2, a
tick wraps the pointer to `(2 + 1) % 3` and leaves the loss buffer
untouched. -/
theorem playback_tick_spec_witness :
    (playbackTick playbackDemoState).highlightNodeIndex = (2 + 1) % (3 : Int)
  ∧ (playbackTick playbackDemoState).losses = playbackDemoState.losses :=
  ⟨playback_tick_spec.2.2 playbackDemoState ⟨.fin 1, [.null, .null, .null], []⟩
      rfl rfl (by decide) (by decide),
   (playback_tick_spec.1 playbackDemoState).1⟩
